import Mathlib

/-!
Verification of `app.py` (sitemap_to_wxr): a pipeline that discovers a
site's sitemap via robots.txt, expands sitemap indexes into page URLs,
scrapes page titles, generates replacement content through an external
text-generation service, and serializes a WordPress WXR export file.

The embedding models network I/O as explicit fetch functions
(`String → Option …`, where `none` stands for a raised
`requests.RequestException`, which covers both network errors and the
error statuses raised by `raise_for_status`), parsed documents as a
small XML-element tree mirroring what BeautifulSoup / ElementTree
expose, and process termination (`sys.exit` / uncaught exceptions) as
an `Except` error value.  Recursion in `parse_sitemap` is fuel-indexed
because the Python original has no cycle guard.
-/

deriving instance DecidableEq for Except

namespace SitemapToWxr

/-- ASCII whitespace characters recognized by Python's `\s` regex class and
`str.strip` (Unicode whitespace is not modelled). -/
def pyIsSpace (c : Char) : Bool :=
  c = ' ' || c = '\t' || c = '\n' || c = '\r' || c = '\x0b' || c = '\x0c'

/-- Python `str.strip()`: drop leading and trailing whitespace. -/
def pyStrip (s : String) : String :=
  String.mk (((s.data.dropWhile pyIsSpace).reverse.dropWhile pyIsSpace).reverse)

/-- Python `str.rstrip("/")`: drop every trailing slash. -/
def rstripSlash (s : String) : String :=
  String.mk ((s.data.reverse.dropWhile (fun c => c = '/')).reverse)

/-- Python substring test `needle in hay` on strings. -/
def strContainsAux (needle : List Char) : List Char → Bool
  | [] => needle.isPrefixOf []
  | c :: rest => needle.isPrefixOf (c :: rest) || strContainsAux needle rest

/-- Python `needle in hay` for strings: substring containment. -/
def strContains (hay needle : String) : Bool :=
  strContainsAux needle.data hay.data

/-- Python `s.startswith(pre)`. -/
def pyStartsWith (s pre : String) : Bool :=
  pre.data.isPrefixOf s.data

/-- A parsed XML/HTML element: tag name, attributes, text content, children.
Mirrors the node shape that both `xml.etree.ElementTree` and BeautifulSoup
expose to `app.py` (tail strings are not used by the program and are not
modelled). -/
inductive Elem where
  | mk : String → List (String × String) → Option String → List Elem → Elem

/-- Tag name of an element. -/
def Elem.tag : Elem → String
  | .mk t _ _ _ => t

/-- Attribute list of an element. -/
def Elem.attrib : Elem → List (String × String)
  | .mk _ a _ _ => a

/-- Direct text content of an element (`Element.text`). -/
def Elem.text : Elem → Option String
  | .mk _ _ tx _ => tx

/-- Child elements. -/
def Elem.children : Elem → List Elem
  | .mk _ _ _ c => c

mutual
/-- BeautifulSoup `.text` / `get_text()`: concatenation of all text in the
subtree, document order. -/
def getText : Elem → String
  | .mk _ _ tx cs => tx.getD "" ++ getTextList cs
/-- Text of a list of sibling subtrees, in order. -/
def getTextList : List Elem → String
  | [] => ""
  | e :: es => getText e ++ getTextList es
end

mutual
/-- BeautifulSoup `find_all(tag)`: every element of the subtree (the root
included) whose tag matches, in document (pre-)order. -/
def findAll (tag : String) : Elem → List Elem
  | .mk t a tx cs =>
    (if t = tag then [Elem.mk t a tx cs] else []) ++ findAllList tag cs
/-- The elements matching `tag` in a list of sibling subtrees, in order. -/
def findAllList (tag : String) : List Elem → List Elem
  | [] => []
  | e :: es => findAll tag e ++ findAllList tag es
end

/-- BeautifulSoup `find(tag) is not None`. -/
def hasTag (tag : String) (e : Elem) : Bool :=
  !(findAll tag e).isEmpty

/-- An HTTP response as `requests.get` returns it: status code and body text. -/
structure HttpResponse where
  status : Nat
  body : String

/-- One attempt of the regex `Sitemap:\s*(\S+)` anchored at the start of
`cs`: the literal, then greedy whitespace, then at least one
non-whitespace character captured as the URL. -/
def sitemapMatchAt (cs : List Char) : Option String :=
  if ("Sitemap:".data).isPrefixOf cs then
    let url := ((cs.drop 8).dropWhile pyIsSpace).takeWhile (fun c => !pyIsSpace c)
    if url.isEmpty then none else some (String.mk url)
  else none

/-- Leftmost match of `SITEMAP_RE`: try every start position left to right. -/
def sitemapSearchAux : List Char → Option String
  | [] => none
  | c :: rest =>
    match sitemapMatchAt (c :: rest) with
    | some u => some u
    | none => sitemapSearchAux rest

/-- Group 1 of the first match of `SITEMAP_RE = re.compile(r"Sitemap:\s*(\S+)")`
in `s`, as `next(SITEMAP_RE.finditer(s))` yields it. -/
def sitemapFirstMatch (s : String) : Option String :=
  sitemapSearchAux s.data

/-- The base-URL normalization of `discover_sitemap` (app.py lines 40-41):
prefix `https://` unless the string already starts with `http`. -/
def normBase (base_url : String) : String :=
  if pyStartsWith base_url "http" then base_url else "https://" ++ base_url

/-- Embeds `discover_sitemap` (app.py lines 38-51).  `get` is `requests.get`
on the robots.txt URL; `none` models a raised `requests.RequestException`. -/
def discover_sitemap (get : String → Option HttpResponse) (base_url : String) : String :=
  match get (rstripSlash (normBase base_url) ++ "/robots.txt") with
  | some r =>
    if r.status = 200 then
      match sitemapFirstMatch r.body with
      | some u => u
      | none => rstripSlash (normBase base_url) ++ "/sitemap.xml"
    else rstripSlash (normBase base_url) ++ "/sitemap.xml"
  | none => rstripSlash (normBase base_url) ++ "/sitemap.xml"

/-- How a run terminates abnormally: `exitMsg` is `sys.exit(msg)` (message on
stderr, exit status 1); `exn` is an uncaught exception (also a non-zero exit);
`outOfFuel` marks unbounded recursion of the cycle-unguarded
`parse_sitemap`, which the Python original would never return from. -/
inductive Abort where
  | exitMsg (msg : String)
  | exn (msg : String)
  | outOfFuel
deriving DecidableEq

/-- Embeds `parse_sitemap` (app.py lines 53-70), fuel-indexed.  `fetch` is
`requests.get` + `raise_for_status` + BeautifulSoup XML parsing; `none`
models a raised `requests.RequestException` (network error or error
status), which the code turns into `sys.exit`.  A sitemap index is
expanded recursively, depth-first, in document order. -/
def parse_sitemap (fetch : String → Option Elem) : Nat → String → Except Abort (List String)
  | 0, _ => .error .outOfFuel
  | fuel + 1, sitemap_url =>
    match fetch sitemap_url with
    | none => .error (.exitMsg ("Failed to fetch sitemap: " ++ sitemap_url))
    | some soup =>
      let locs := (findAll "loc" soup).map (fun l => pyStrip (getText l))
      if hasTag "sitemapindex" soup then
        locs.foldlM (fun acc u =>
          match parse_sitemap fetch fuel u with
          | .error e => .error e
          | .ok r => .ok (acc ++ r)) []
      else
        .ok locs

/-- Embeds `fetch_title` (app.py lines 72-81).  `get` is `requests.get` +
`raise_for_status` + HTML parsing; `none` models a raised
`requests.RequestException` (network error or error status).  On success the
first `title` element's stripped text is returned, `none` if there is no
`title` element. -/
def fetch_title (get : String → Option Elem) (url : String) : Option String :=
  match get url with
  | none => none
  | some soup =>
    match (findAll "title" soup).head? with
    | some t => some (pyStrip (getText t))
    | none => none

/-- The placeholder title used for position `n` (1-indexed). -/
def untitled (n : Nat) : String :=
  "Untitled Post " ++ toString n

/-- Embeds the caller expression `fetch_title(url) or f"Untitled Post N"`
(app.py line 155): Python `or` takes the right operand when the left is
falsy, and both `None` and the empty string are falsy. -/
def titleOrPlaceholder (t : Option String) (n : Nat) : String :=
  match t with
  | some s => if s = "" then untitled n else s
  | none => untitled n

/-- The fixed prompt template of `generate_post` (app.py lines 85-89); the
hyphens in the source are U+2011 non-breaking hyphens. -/
def promptFor (title : String) : String :=
  "Write a compelling, original blog post of 800‑1000 words titled \"" ++ title ++
    "\". " ++
    "The tone should be conversational and insightful, suitable for a tech‑savvy audience. " ++
    "Do NOT reference the original website or any copyrighted material."

/-- Embeds `generate_post` (app.py lines 83-97).  `complete` is the external
chat-completion call on the prompt; `none` models any exception from the
service, which the code does not catch.  The completion text is stripped. -/
def generate_post (complete : String → Option String) (title : String) : Option String :=
  (complete (promptFor title)).map pyStrip

/-- The Post record built by `main` (app.py lines 157-162). -/
structure Post where
  id : Nat
  title : String
  content : String
  guid : String
deriving DecidableEq

/-- Helper: an element with only text content. -/
def el (tag txt : String) : Elem :=
  .mk tag [] (some txt) []

/-- The `item` element `build_wxr` emits for one post (app.py lines 119-131).
`slug` is the external `slugify`; `now` is `datetime.utcnow()` formatted
`"%a, %d %b %Y %H:%M:%S +0000"`.  The description string uses the source's
U+2011 non-breaking hyphen. -/
def wxrItem (slug : String → String) (now : String) (site_url : String) (p : Post) : Elem :=
  .mk "item" [] none [
    el "title" p.title,
    el "link" (rstripSlash site_url ++ "/" ++ slug p.title ++ "/"),
    el "pubDate" now,
    el "dc:creator" "admin",
    .mk "guid" [("isPermaLink", "false")] (some p.guid) [],
    el "description" "Generated with GPT‑4o",
    el "content:encoded" ("<![CDATA[" ++ p.content ++ "]]>"),
    el "wp:post_id" (toString p.id),
    el "wp:post_type" "post",
    el "wp:status" "publish"]

/-- Embeds `build_wxr` (app.py lines 99-132).  Note that
`ET.Element("wp:author_id", text="1")` passes `text` as an extra keyword
argument, which ElementTree stores as an XML **attribute** named `text`;
the element's text content stays empty.  Likewise for `wp:author_login`. -/
def build_wxr (slug : String → String) (now : String) (posts : List Post)
    (site_title site_url : String) : Elem :=
  .mk "rss"
    [("version", "2.0"),
     ("xmlns:excerpt", "http://wordpress.org/export/1.2/excerpt/"),
     ("xmlns:content", "http://purl.org/rss/1.0/modules/content/"),
     ("xmlns:wfw", "http://wellformedweb.org/CommentAPI/"),
     ("xmlns:dc", "http://purl.org/dc/elements/1.1/"),
     ("xmlns:wp", "http://wordpress.org/export/1.2/")] none
    [.mk "channel" [] none
      ([el "title" site_title,
        el "link" site_url,
        el "description" ("Import generated posts for " ++ site_title),
        el "wp:wxr_version" "1.2",
        .mk "wp:author" [] none
          [.mk "wp:author_id" [("text", "1")] none [],
           .mk "wp:author_login" [("text", "admin")] none []]] ++
        posts.map (wxrItem slug now site_url))]

/-- The parsed CLI arguments (app.py lines 135-140).  `max_posts` is a
Python `int` and may be negative. -/
structure Args where
  url : String
  domain_filter : Option String
  max_posts : Int
  output : String

/-- The ambient effects `main` interacts with: `http` serves robots.txt
requests, `fetchXml` fetched-and-parsed sitemap documents, `fetchPage`
fetched-and-parsed HTML pages, `complete` the external completion service,
`slug` the `slugify` library, `now` the formatted current UTC time.
In each fetch function `none` models a raised exception. -/
structure Env where
  http : String → Option HttpResponse
  fetchXml : String → Option Elem
  fetchPage : String → Option Elem
  complete : String → Option String
  slug : String → String
  now : String

/-- Python slice `l[:k]` for an `int` bound `k` (negative bounds count from
the end, clamped at zero). -/
def pyTake (k : Int) (l : List α) : List α :=
  if k < 0 then l.take (l.length - k.natAbs) else l.take k.toNat

/-- The filtering step `urls = [u for u in urls if args.domain_filter in u]`
guarded by `if args.domain_filter:` (app.py lines 147-148); an absent or
empty (falsy) filter leaves the list unchanged. -/
def applyFilter (filt : Option String) (urls : List String) : List String :=
  match filt with
  | none => urls
  | some f => if f = "" then urls else urls.filter (fun u => strContains u f)

/-- The URL-selection prefix of `main` (app.py lines 142-154): discover the
sitemap, expand it, filter, abort when empty, truncate to `max_posts`. -/
def selectedUrls (env : Env) (args : Args) (fuel : Nat) : Except Abort (List String) :=
  match parse_sitemap env.fetchXml fuel (discover_sitemap env.http args.url) with
  | .error e => .error e
  | .ok urls0 =>
    let urls := applyFilter args.domain_filter urls0
    if urls.isEmpty then .error (.exitMsg "No URLs found.")
    else .ok (pyTake args.max_posts urls)

/-- The post-generation loop of `main` (app.py lines 153-163): for the URL at
0-based index `i`, the title falls back to the placeholder for `i + 1`, the
content comes from the generation service (whose exceptions are uncaught),
and the record carries `id = i+1` and
`guid = args.url.rstrip("/") + "/?p=" + str(i+1)`. -/
def buildPosts (env : Env) (base_url : String) : List String → Nat → Except Abort (List Post)
  | [], _ => .ok []
  | url :: rest, i =>
    let title := titleOrPlaceholder (fetch_title env.fetchPage url) (i + 1)
    match generate_post env.complete title with
    | none => .error (.exn "generate_post raised")
    | some content =>
      match buildPosts env base_url rest (i + 1) with
      | .error e => .error e
      | .ok ps =>
        .ok ({ id := i + 1, title := title, content := content,
               guid := rstripSlash base_url ++ "/?p=" ++ toString (i + 1) } :: ps)

/-- The list of Post records `main` accumulates before building the export. -/
def mainPosts (env : Env) (args : Args) (fuel : Nat) : Except Abort (List Post) :=
  match selectedUrls env args fuel with
  | .error e => .error e
  | .ok sel => buildPosts env args.url sel 0

/-- Embeds `main` (app.py lines 134-168): on success it performs exactly one
file write, of the serialized WXR tree built with the hardcoded site title
`"Secret Hotline AI Blog"`, to `args.output` (app.py lines 165-167). -/
def main (env : Env) (args : Args) (fuel : Nat) : Except Abort (String × Elem) :=
  match mainPosts env args fuel with
  | .error e => .error e
  | .ok posts => .ok (args.output, build_wxr env.slug env.now posts "Secret Hotline AI Blog" args.url)

/-- The file writes a run performs: `Path(args.output).write_bytes(...)` is
the only write in the program and runs only after the whole pipeline
succeeded. -/
def mainWrites (env : Env) (args : Args) (fuel : Nat) : List (String × Elem) :=
  match main env args fuel with
  | .ok w => [w]
  | .error _ => []

/-- The `channel` element of an `rss` tree. -/
def channelOf (rss : Elem) : Option Elem :=
  rss.children.head?

/-- The first child of `e` with the given tag. -/
def firstChild (tag : String) (e : Elem) : Option Elem :=
  (e.children.filter (fun c => c.tag = tag)).head?

/-- Text content of the first child of `e` with the given tag. -/
def childText (tag : String) (e : Elem) : Option String :=
  (firstChild tag e).bind Elem.text

/-- The `item` elements of the channel of an `rss` tree, in order. -/
def itemsOf (rss : Elem) : List Elem :=
  match channelOf rss with
  | some ch => ch.children.filter (fun c => c.tag = "item")
  | none => []

/-- A `loc` element holding a URL, as it appears in sitemap documents. -/
def locEl (s : String) : Elem :=
  .mk "loc" [] (some s) []

/-- A plain (non-index) sitemap document whose `loc` entries hold `locs`. -/
def plainSitemapDoc (locs : List String) : Elem :=
  .mk "urlset" [] none (locs.map locEl)

/-- A sitemap index document whose `loc` entries name the child sitemaps. -/
def sitemapIndexDoc (childs : List String) : Elem :=
  .mk "sitemapindex" [] none (childs.map locEl)

/-- A minimal HTML page whose head carries the given `title` text. -/
def pageDoc (t : String) : Elem :=
  .mk "html" [] none [.mk "head" [] none [.mk "title" [] (some t) []]]

/-- The end-to-end scenario of the spec: robots.txt absent, the conventional
sitemap address serves a plain sitemap with two page URLs, both pages have
titles, the generation service succeeds. -/
def exEnv : Env where
  http := fun _ => none
  fetchXml := fun u =>
    if u = "https://example.com/sitemap.xml" then
      some (plainSitemapDoc ["https://example.com/alpha", "https://example.com/beta"])
    else none
  fetchPage := fun u =>
    if u = "https://example.com/alpha" then some (pageDoc "Alpha Title")
    else if u = "https://example.com/beta" then some (pageDoc "Beta Title")
    else none
  complete := fun _ => some "Body text."
  slug := fun _ => "slug"
  now := "Mon, 01 Jan 2024 00:00:00 +0000"

/-- CLI arguments of the end-to-end scenario: base URL and max-posts 2. -/
def exArgs : Args where
  url := "https://example.com"
  domain_filter := none
  max_posts := 2
  output := "generated_posts.xml"

/-- A page fetcher whose pages all carry a whitespace-only title text. -/
def blankTitleGet : String → Option Elem :=
  fun _ => some (pageDoc "   ")

/-- A sample Post record for evaluating the export builder. -/
def examplePost : Post where
  id := 1
  title := "Hello World"
  content := "Body text."
  guid := "https://example.com/?p=1"

/-- A fetcher serving a two-child sitemap index whose children are plain
sitemaps of two pages each. -/
def exIndexFetch : String → Option Elem := fun u =>
  if u = "https://e.com/root.xml" then
    some (sitemapIndexDoc ["https://e.com/s1.xml", "https://e.com/s2.xml"])
  else if u = "https://e.com/s1.xml" then
    some (plainSitemapDoc ["https://e.com/a", "https://e.com/b"])
  else if u = "https://e.com/s2.xml" then
    some (plainSitemapDoc ["https://e.com/c", "https://e.com/d"])
  else none

/-- The page lists of the two child sitemaps of `exIndexFetch`. -/
def exIndexPages : String → List String := fun c =>
  if c = "https://e.com/s1.xml" then ["https://e.com/a", "https://e.com/b"]
  else ["https://e.com/c", "https://e.com/d"]

/-- A robots.txt fetcher answering 200 with two Sitemap directives. -/
def exRobotsGet : String → Option HttpResponse := fun _ =>
  some { status := 200,
         body := "User-agent: *\nSitemap: https://rob.example/map.xml\nSitemap: https://other/map.xml" }

/-- A scenario with four sitemap URLs of which three match the substring
filter, every page fetch failing, for exercising filter and truncation. -/
def c5Env : Env where
  http := fun _ => none
  fetchXml := fun u =>
    if u = "https://example.com/sitemap.xml" then
      some (plainSitemapDoc
        ["https://example.com/blog/a", "https://example.com/x",
         "https://example.com/blog/b", "https://example.com/blog/c"])
    else none
  fetchPage := fun _ => none
  complete := fun _ => some "Body text."
  slug := fun _ => "slug"
  now := "Mon, 01 Jan 2024 00:00:00 +0000"

/-- CLI arguments with a `/blog/` substring filter and max-posts 2. -/
def c5Args : Args where
  url := "https://example.com"
  domain_filter := some "/blog/"
  max_posts := 2
  output := "generated_posts.xml"

/-- The end-to-end environment with the sitemap fetch failing. -/
def noXmlEnv : Env :=
  { exEnv with fetchXml := fun _ => none }

/-- Every string contains the empty substring, as Python's `"" in s` does. -/
theorem strContains_empty (s : String) : strContains s "" = true := by
  unfold strContains
  cases s.data with
  | nil => rfl
  | cons c rest => simp [strContainsAux, List.isPrefixOf]

/-- The `loc` elements found in a forest of `loc` leaves are the leaves
themselves, in order. -/
theorem findAllList_loc (ss : List String) :
    findAllList "loc" (ss.map locEl) = ss.map locEl := by
  induction ss with
  | nil => rfl
  | cons s rest ih => simp [findAllList, findAll, locEl, ih]

/-- A forest of `loc` leaves holds no `sitemapindex` element. -/
theorem findAllList_idx (ss : List String) :
    findAllList "sitemapindex" (ss.map locEl) = [] := by
  induction ss with
  | nil => rfl
  | cons s rest ih => simp [findAllList, findAll, locEl, ih]

/-- A plain sitemap document is not a sitemap index. -/
theorem hasTag_idx_plain (locs : List String) :
    hasTag "sitemapindex" (plainSitemapDoc locs) = false := by
  simp [hasTag, plainSitemapDoc, findAll, findAllList_idx]

/-- The `loc` elements of a plain sitemap document, in document order. -/
theorem findAll_loc_plain (locs : List String) :
    findAll "loc" (plainSitemapDoc locs) = locs.map locEl := by
  simp [plainSitemapDoc, findAll, findAllList_loc]

/-- The `loc` elements of a sitemap index document, in document order. -/
theorem findAll_loc_idx (childs : List String) :
    findAll "loc" (sitemapIndexDoc childs) = childs.map locEl := by
  simp [sitemapIndexDoc, findAll, findAllList_loc]

/-- The text of a `loc` leaf is the URL it holds. -/
theorem getText_locEl (s : String) : getText (locEl s) = s := by
  simp [locEl, getText, getTextList, String.append_empty]

/-- Expanding a plain sitemap returns the stripped text of its `loc`
entries, in document order. -/
theorem parse_plain_ok (fetch : String → Option Elem) (fuel : Nat) (url : String)
    (locs : List String) (h : fetch url = some (plainSitemapDoc locs)) :
    parse_sitemap fetch (fuel + 1) url = .ok (locs.map pyStrip) := by
  simp only [parse_sitemap, h, hasTag_idx_plain, findAll_loc_plain]
  simp [List.map_map, Function.comp, getText_locEl]

/-- The accumulator fold of the sitemap-index branch concatenates the child
results depth-first when every child expansion succeeds. -/
theorem parse_fold_ok (fetch : String → Option Elem) (fuel : Nat) :
    ∀ (cs : List String) (res : String → List String),
      (∀ c ∈ cs, parse_sitemap fetch fuel c = .ok (res c)) →
      ∀ acc : List String,
        (cs.foldlM (fun acc u =>
            match parse_sitemap fetch fuel u with
            | .error e => .error e
            | .ok r => .ok (acc ++ r)) acc : Except Abort (List String)) =
          .ok (acc ++ (cs.map res).flatten) := by
  intro cs
  induction cs with
  | nil => intro res _ acc; simp [List.foldlM, pure, Except.pure]
  | cons c rest ih =>
    intro res h acc
    have hc := h c (List.mem_cons_self c rest)
    have hrest := ih res (fun d hd => h d (List.mem_cons_of_mem _ hd)) (acc ++ res c)
    simp only [List.foldlM, hc]
    simpa [List.append_assoc] using hrest

/-- Flattening lists of a common length multiplies the count. -/
theorem flatten_length_const {α : Type} (M : Nat) :
    ∀ (l : List (List α)), (∀ x ∈ l, x.length = M) →
      l.flatten.length = l.length * M := by
  intro l
  induction l with
  | nil => intro _; simp
  | cons x rest ih =>
    intro h
    have hx := h x (List.mem_cons_self x rest)
    have hr := ih (fun y hy => h y (List.mem_cons_of_mem _ hy))
    simp [List.flatten, hx, hr, Nat.succ_mul, Nat.add_comm]

/-- Full description of a successful run of the post-generation loop: one
Post per URL, with 1-indexed ids, the GUID formed from the stripped base
URL and the position, and the title from `fetch_title` with the
placeholder fallback. -/
theorem buildPosts_ok_spec (env : Env) (u : String) :
    ∀ (l : List String) (i0 : Nat) (ps : List Post),
      buildPosts env u l i0 = .ok ps →
      ps.length = l.length ∧
      ∀ j (hj : j < ps.length) (hl : j < l.length),
        (ps.get ⟨j, hj⟩).id = i0 + j + 1 ∧
        (ps.get ⟨j, hj⟩).guid = rstripSlash u ++ "/?p=" ++ toString (i0 + j + 1) ∧
        (ps.get ⟨j, hj⟩).title =
          titleOrPlaceholder (fetch_title env.fetchPage (l.get ⟨j, hl⟩)) (i0 + j + 1) := by
  intro l
  induction l with
  | nil =>
    intro i0 ps h
    simp only [buildPosts] at h
    cases h
    exact ⟨rfl, fun j hj hl => absurd hj (by simp)⟩
  | cons url rest ih =>
    intro i0 ps h
    simp only [buildPosts] at h
    cases hg : generate_post env.complete
        (titleOrPlaceholder (fetch_title env.fetchPage url) (i0 + 1)) with
    | none => rw [hg] at h; cases h
    | some content =>
      rw [hg] at h
      cases hb : buildPosts env u rest (i0 + 1) with
      | error e => rw [hb] at h; cases h
      | ok tail =>
        rw [hb] at h
        cases h
        obtain ⟨hlen, hspec⟩ := ih (i0 + 1) tail hb
        refine ⟨by simp [hlen], ?_⟩
        intro j hj hl
        cases j with
        | zero =>
          refine ⟨by simp, by simp, by simp⟩
        | succ k =>
          have hj' : k < tail.length := by simpa using hj
          have hl' : k < rest.length := by simpa using hl
          obtain ⟨h1, h2, h3⟩ := hspec k hj' hl'
          have e : i0 + 1 + k + 1 = i0 + (k + 1) + 1 := by omega
          rw [e] at h1 h2 h3
          exact ⟨by simpa using h1, by simpa using h2, by simpa using h3⟩

/-- When the completion service always answers, the generation loop never
aborts. -/
theorem buildPosts_total (env : Env) (u : String)
    (hc : ∀ p, (env.complete p).isSome = true) :
    ∀ (l : List String) (i0 : Nat), ∃ ps, buildPosts env u l i0 = .ok ps := by
  intro l
  induction l with
  | nil => intro i0; exact ⟨[], rfl⟩
  | cons url rest ih =>
    intro i0
    obtain ⟨tail, htail⟩ := ih (i0 + 1)
    have hcp := hc (promptFor (titleOrPlaceholder (fetch_title env.fetchPage url) (i0 + 1)))
    cases hg : env.complete (promptFor (titleOrPlaceholder (fetch_title env.fetchPage url) (i0 + 1))) with
    | none => rw [hg] at hcp; cases hcp
    | some body =>
      refine ⟨{ id := i0 + 1,
                title := titleOrPlaceholder (fetch_title env.fetchPage url) (i0 + 1),
                content := pyStrip body,
                guid := rstripSlash u ++ "/?p=" ++ toString (i0 + 1) } :: tail, ?_⟩
      simp only [buildPosts, generate_post, hg, Option.map, htail]

/-- Inversion of a successful `mainPosts`. -/
theorem mainPosts_ok_elim (env : Env) (args : Args) (fuel : Nat) (ps : List Post)
    (h : mainPosts env args fuel = .ok ps) :
    ∃ sel, selectedUrls env args fuel = .ok sel ∧ buildPosts env args.url sel 0 = .ok ps := by
  unfold mainPosts at h
  cases hs : selectedUrls env args fuel with
  | error e => rw [hs] at h; cases h
  | ok sel => rw [hs] at h; exact ⟨sel, rfl, h⟩

/-- Inversion of a successful URL selection. -/
theorem selectedUrls_ok_elim (env : Env) (args : Args) (fuel : Nat) (sel : List String)
    (h : selectedUrls env args fuel = .ok sel) :
    ∃ urls0,
      parse_sitemap env.fetchXml fuel (discover_sitemap env.http args.url) = .ok urls0 ∧
      (applyFilter args.domain_filter urls0).isEmpty = false ∧
      sel = pyTake args.max_posts (applyFilter args.domain_filter urls0) := by
  unfold selectedUrls at h
  cases hp : parse_sitemap env.fetchXml fuel (discover_sitemap env.http args.url) with
  | error e => rw [hp] at h; cases h
  | ok urls0 =>
    rw [hp] at h
    dsimp only at h
    by_cases he : (applyFilter args.domain_filter urls0).isEmpty
    · rw [if_pos he] at h; cases h
    · rw [if_neg he] at h
      cases h
      exact ⟨urls0, rfl, by simpa using he, rfl⟩

/-- Inversion of a successful run: the single write targets the configured
output path and serializes the export built from the accumulated posts with
the hardcoded site title. -/
theorem main_ok_elim (env : Env) (args : Args) (fuel : Nat) (out : String) (rss : Elem)
    (h : main env args fuel = .ok (out, rss)) :
    out = args.output ∧
    ∃ ps, mainPosts env args fuel = .ok ps ∧
      rss = build_wxr env.slug env.now ps "Secret Hotline AI Blog" args.url := by
  unfold main at h
  cases hp : mainPosts env args fuel with
  | error e => rw [hp] at h; cases h
  | ok ps =>
    rw [hp] at h
    cases h
    exact ⟨rfl, ps, rfl, rfl⟩

/-- The channel of the export holds exactly one `item` per post, in order. -/
theorem itemsOf_build_wxr (slug : String → String) (now : String) (posts : List Post)
    (t u : String) :
    itemsOf (build_wxr slug now posts t u) = posts.map (wxrItem slug now u) := by
  simp only [itemsOf, build_wxr, channelOf, Elem.children, List.head?]
  rw [List.filter_append]
  have h1 : List.filter (fun c => c.tag = "item")
      [el "title" t, el "link" u, el "description" ("Import generated posts for " ++ t),
       el "wp:wxr_version" "1.2",
       Elem.mk "wp:author" [] none
         [Elem.mk "wp:author_id" [("text", "1")] none [],
          Elem.mk "wp:author_login" [("text", "admin")] none []]] = [] := rfl
  rw [h1]
  have h2 : ∀ a ∈ posts.map (wxrItem slug now u), decide (a.tag = "item") = true := by
    intro a ha
    obtain ⟨p, _, rfl⟩ := List.mem_map.mp ha
    rfl
  rw [List.nil_append, List.filter_eq_self.mpr h2]

/-- C1: in every run, the generated post at 1-indexed position i has post id
i and a GUID equal to the base URL with trailing slashes stripped followed
by "/?p=" and i; in the end-to-end scenario with two URLs and max-posts 2
the output WXR holds exactly two item elements, with wp:post_id values "1"
and "2" and GUIDs "https://example.com/?p=1" and
"https://example.com/?p=2". -/
theorem C1_post_ids_and_guids :
    (∀ (env : Env) (args : Args) (fuel : Nat) (ps : List Post),
        mainPosts env args fuel = .ok ps →
        ∀ j (hj : j < ps.length),
          (ps.get ⟨j, hj⟩).id = j + 1 ∧
          (ps.get ⟨j, hj⟩).guid = rstripSlash args.url ++ "/?p=" ++ toString (j + 1)) ∧
    ((main exEnv exArgs 2).toOption.map (fun w =>
        ((itemsOf w.2).map (childText "wp:post_id"),
         (itemsOf w.2).map (childText "guid"))) =
      some ([some "1", some "2"],
            [some "https://example.com/?p=1", some "https://example.com/?p=2"])) := by
  constructor
  · intro env args fuel ps h j hj
    obtain ⟨sel, _, hb⟩ := mainPosts_ok_elim env args fuel ps h
    obtain ⟨hlen, hspec⟩ := buildPosts_ok_spec env args.url sel 0 ps hb
    have hl : j < sel.length := hlen ▸ hj
    obtain ⟨h1, h2, _⟩ := hspec j hj hl
    exact ⟨by simpa using h1, by simpa using h2⟩
  · decide

/-- Witness: C1 applied to the end-to-end scenario at position 1. -/
theorem C1_post_ids_and_guids_witness :
    mainPosts exEnv exArgs 2 =
      Except.ok
        [{ id := 1, title := "Alpha Title", content := "Body text.",
           guid := "https://example.com/?p=1" },
         { id := 2, title := "Beta Title", content := "Body text.",
           guid := "https://example.com/?p=2" }] ∧
    ({ id := 1, title := "Alpha Title", content := "Body text.",
       guid := "https://example.com/?p=1" } : Post).id = 0 + 1 ∧
    ({ id := 1, title := "Alpha Title", content := "Body text.",
       guid := "https://example.com/?p=1" } : Post).guid =
      rstripSlash exArgs.url ++ "/?p=" ++ toString (0 + 1) := by
  have hps : mainPosts exEnv exArgs 2 =
      Except.ok
        [{ id := 1, title := "Alpha Title", content := "Body text.",
           guid := "https://example.com/?p=1" },
         { id := 2, title := "Beta Title", content := "Body text.",
           guid := "https://example.com/?p=2" }] := by decide
  have h := C1_post_ids_and_guids.1 exEnv exArgs 2
    [{ id := 1, title := "Alpha Title", content := "Body text.",
       guid := "https://example.com/?p=1" },
     { id := 2, title := "Beta Title", content := "Body text.",
       guid := "https://example.com/?p=2" }] hps 0 (by decide)
  exact ⟨hps, h.1, h.2⟩

/-- C2: the Sitemap Expander maps a sitemap index of N child sitemaps, each
a plain sitemap with M loc entries, to exactly N times M page URLs
concatenated depth-first in document order; for a plain sitemap it returns
the trimmed text of every loc element in document order. -/
theorem C2_expander :
    (∀ (fetch : String → Option Elem) (url : String) (locs : List String) (fuel : Nat),
        fetch url = some (plainSitemapDoc locs) →
        parse_sitemap fetch (fuel + 1) url = .ok (locs.map pyStrip)) ∧
    (∀ (fetch : String → Option Elem) (root : String) (childs : List String)
        (pages : String → List String) (fuel : Nat),
        fetch root = some (sitemapIndexDoc childs) →
        (∀ c ∈ childs, pyStrip c = c) →
        (∀ c ∈ childs, fetch c = some (plainSitemapDoc (pages c))) →
        parse_sitemap fetch (fuel + 2) root =
          .ok ((childs.map (fun c => (pages c).map pyStrip)).flatten) ∧
        ∀ M : Nat, (∀ c ∈ childs, (pages c).length = M) →
          ((childs.map (fun c => (pages c).map pyStrip)).flatten).length =
            childs.length * M) := by
  constructor
  · intro fetch url locs fuel h
    exact parse_plain_ok fetch fuel url locs h
  · intro fetch root childs pages fuel hroot hstrip hchild
    constructor
    · have hidx : hasTag "sitemapindex" (sitemapIndexDoc childs) = true := by
        simp [hasTag, sitemapIndexDoc, findAll]
      have hlocs : (findAll "loc" (sitemapIndexDoc childs)).map (fun l => pyStrip (getText l)) =
          childs := by
        rw [findAll_loc_idx]
        rw [List.map_map]
        calc childs.map ((fun l => pyStrip (getText l)) ∘ locEl)
            = childs.map id := List.map_congr_left (fun c hc => by
              simp [Function.comp, getText_locEl, hstrip c hc])
          _ = childs := List.map_id childs
      have hrec : ∀ c ∈ childs,
          parse_sitemap fetch (fuel + 1) c = .ok ((pages c).map pyStrip) := by
        intro c hc
        exact parse_plain_ok fetch fuel c (pages c) (hchild c hc)
      have hfold := parse_fold_ok fetch (fuel + 1) childs
        (fun c => (pages c).map pyStrip) hrec []
      show parse_sitemap fetch (fuel + 1 + 1) root = _
      simp only [parse_sitemap, hroot, hidx, if_true, hlocs]
      simpa using hfold
    · intro M hM
      rw [flatten_length_const M _ ?_, List.length_map]
      intro x hx
      obtain ⟨c, hc, rfl⟩ := List.mem_map.mp hx
      rw [List.length_map]
      exact hM c hc

/-- Witness: C2 applied to a concrete two-by-two sitemap index. -/
theorem C2_expander_witness :
    parse_sitemap exIndexFetch 2 "https://e.com/root.xml" =
      Except.ok
        ["https://e.com/a", "https://e.com/b", "https://e.com/c", "https://e.com/d"] ∧
    (4 : Nat) = 2 * 2 := by
  have h := C2_expander.2 exIndexFetch "https://e.com/root.xml"
    ["https://e.com/s1.xml", "https://e.com/s2.xml"] exIndexPages 0
    rfl (by decide)
    (by
      intro c hc
      simp only [List.mem_cons, List.not_mem_nil, or_false] at hc
      rcases hc with rfl | rfl
      · rfl
      · rfl)
  exact ⟨h.1, rfl⟩

/-- C3: with the base URL normalized (https-prefixed when it does not start
with "http"), a robots.txt response with status 200 whose body has a first
`Sitemap:` match makes the Locator return exactly that first matched URL;
a fetch failure, a non-200 status, or a missing directive makes it return
the base with trailing slashes stripped followed by "/sitemap.xml",
without raising. -/
theorem C3_locator (get : String → Option HttpResponse) (base_url : String) :
    (∀ (r : HttpResponse) (u : String),
        get (rstripSlash (normBase base_url) ++ "/robots.txt") = some r →
        r.status = 200 → sitemapFirstMatch r.body = some u →
        discover_sitemap get base_url = u) ∧
    (∀ r : HttpResponse,
        get (rstripSlash (normBase base_url) ++ "/robots.txt") = some r →
        r.status = 200 → sitemapFirstMatch r.body = none →
        discover_sitemap get base_url = rstripSlash (normBase base_url) ++ "/sitemap.xml") ∧
    (∀ r : HttpResponse,
        get (rstripSlash (normBase base_url) ++ "/robots.txt") = some r →
        r.status ≠ 200 →
        discover_sitemap get base_url = rstripSlash (normBase base_url) ++ "/sitemap.xml") ∧
    (get (rstripSlash (normBase base_url) ++ "/robots.txt") = none →
        discover_sitemap get base_url = rstripSlash (normBase base_url) ++ "/sitemap.xml") := by
  refine ⟨?_, ?_, ?_, ?_⟩
  · intro r u hget hst hm
    simp [discover_sitemap, hget, hst, hm]
  · intro r hget hst hm
    simp [discover_sitemap, hget, hst, hm]
  · intro r hget hst
    simp only [discover_sitemap, hget]
    rw [if_neg hst]
  · intro hget
    simp only [discover_sitemap, hget]

/-- Witness: C3 applied to a robots.txt with two Sitemap directives. -/
theorem C3_locator_witness :
    discover_sitemap exRobotsGet "example.com" = "https://rob.example/map.xml" :=
  (C3_locator exRobotsGet "example.com").1
    { status := 200,
      body := "User-agent: *\nSitemap: https://rob.example/map.xml\nSitemap: https://other/map.xml" }
    "https://rob.example/map.xml" rfl rfl (by decide)

/-- C4 counterexample: on a successful fetch of a page whose first title
element holds only whitespace, the trimmed title text is the empty string,
yet the resulting post title is the placeholder, not that trimmed text —
refuting the claim that on success the title always equals the trimmed
text of the first title element. -/
theorem C4_counterexample :
    fetch_title blankTitleGet "https://example.com/beta" = some "" ∧
    ((findAll "title" (pageDoc "   ")).head?).map (fun t => pyStrip (getText t)) =
      some "" ∧
    titleOrPlaceholder (fetch_title blankTitleGet "https://example.com/beta") 2 =
      "Untitled Post 2" ∧
    ("Untitled Post 2" : String) ≠ "" := by
  decide

/-- C4 (amended): on a fetch failure the Title Extractor returns the absence
marker and the post title is the placeholder "Untitled Post N"; on success
the post title is the trimmed text of the first title element when that
text is nonempty, and the placeholder when there is no title element or
when the trimmed text is empty (Python `or` also treats the empty string
as absent). -/
theorem C4_title_fallback :
    (∀ (get : String → Option Elem) (url : String) (n : Nat),
        get url = none →
        fetch_title get url = none ∧
        titleOrPlaceholder (fetch_title get url) n = untitled n) ∧
    (∀ (get : String → Option Elem) (url : String) (soup : Elem) (n : Nat),
        get url = some soup → findAll "title" soup = [] →
        titleOrPlaceholder (fetch_title get url) n = untitled n) ∧
    (∀ (get : String → Option Elem) (url : String) (soup t : Elem) (ts : List Elem) (n : Nat),
        get url = some soup → findAll "title" soup = t :: ts →
        pyStrip (getText t) ≠ "" →
        titleOrPlaceholder (fetch_title get url) n = pyStrip (getText t)) ∧
    (∀ (get : String → Option Elem) (url : String) (soup t : Elem) (ts : List Elem) (n : Nat),
        get url = some soup → findAll "title" soup = t :: ts →
        pyStrip (getText t) = "" →
        titleOrPlaceholder (fetch_title get url) n = untitled n) := by
  refine ⟨?_, ?_, ?_, ?_⟩
  · intro get url n hget
    unfold fetch_title
    rw [hget]
    exact ⟨rfl, rfl⟩
  · intro get url soup n hget hfind
    simp [fetch_title, hget, hfind, titleOrPlaceholder]
  · intro get url soup t ts n hget hfind hne
    simp [fetch_title, hget, hfind, titleOrPlaceholder, hne]
  · intro get url soup t ts n hget hfind heq
    simp [fetch_title, hget, hfind, titleOrPlaceholder, heq]

/-- Witness: C4 applied to a failing page fetch at position 2. -/
theorem C4_title_fallback_witness :
    titleOrPlaceholder (fetch_title (fun _ => none) "https://example.com/beta") 2 =
      untitled 2 :=
  ((C4_title_fallback.1) (fun _ => none) "https://example.com/beta" 2 rfl).2

/-- C5: the post-filter URL list is exactly the sublist of URLs containing
the substring, in their original order; and with max-posts K and a
filtered list longer than K, exactly K posts are generated, the j-th built
from the j-th filtered URL. -/
theorem C5_filter_and_truncate :
    (∀ (f : String) (urls : List String),
        applyFilter (some f) urls = urls.filter (fun u => strContains u f) ∧
        (∀ u, u ∈ applyFilter (some f) urls ↔ u ∈ urls ∧ strContains u f = true) ∧
        (applyFilter (some f) urls).Sublist urls) ∧
    (∀ (env : Env) (args : Args) (fuel : Nat) (urls0 : List String) (K : Nat) (ps : List Post),
        parse_sitemap env.fetchXml fuel (discover_sitemap env.http args.url) = .ok urls0 →
        args.max_posts = (K : Int) →
        K < (applyFilter args.domain_filter urls0).length →
        mainPosts env args fuel = .ok ps →
        selectedUrls env args fuel = .ok ((applyFilter args.domain_filter urls0).take K) ∧
        ps.length = K ∧
        ∀ j (hj : j < ps.length) (hf : j < (applyFilter args.domain_filter urls0).length),
          (ps.get ⟨j, hj⟩).title =
            titleOrPlaceholder
              (fetch_title env.fetchPage
                ((applyFilter args.domain_filter urls0).get ⟨j, hf⟩)) (j + 1)) := by
  constructor
  · intro f urls
    have heq : applyFilter (some f) urls = urls.filter (fun u => strContains u f) := by
      by_cases hf : f = ""
      · subst hf
        simp only [applyFilter, if_pos rfl]
        exact (List.filter_eq_self.mpr (fun a _ => strContains_empty a)).symm
      · simp [applyFilter, hf]
    refine ⟨heq, ?_, heq ▸ List.filter_sublist urls⟩
    intro u
    rw [heq]
    exact List.mem_filter
  · intro env args fuel urls0 K ps hp hK hlt hm
    obtain ⟨sel, hsel, hb⟩ := mainPosts_ok_elim env args fuel ps hm
    obtain ⟨urls0x, hpx, _, hselEq⟩ := selectedUrls_ok_elim env args fuel sel hsel
    rw [hp] at hpx
    cases hpx
    have htake : pyTake args.max_posts (applyFilter args.domain_filter urls0) =
        (applyFilter args.domain_filter urls0).take K := by
      rw [hK]
      unfold pyTake
      rw [if_neg (by omega), Int.toNat_natCast]
    rw [htake] at hselEq
    subst hselEq
    obtain ⟨hlen, hspec⟩ := buildPosts_ok_spec env args.url _ 0 ps hb
    have hlen2 : ps.length = K := by
      rw [hlen, List.length_take]
      omega
    refine ⟨hsel, hlen2, ?_⟩
    intro j hj hf
    have hl : j < ((applyFilter args.domain_filter urls0).take K).length := hlen ▸ hj
    obtain ⟨_, _, h3⟩ := hspec j hj hl
    have hgeteq : ((applyFilter args.domain_filter urls0).take K).get ⟨j, hl⟩ =
        (applyFilter args.domain_filter urls0).get ⟨j, hf⟩ := by
      simp [List.get_eq_getElem, List.getElem_take]
    rw [hgeteq] at h3
    simpa using h3

/-- Witness: C5 applied to the filter-and-truncate scenario. -/
theorem C5_filter_and_truncate_witness :
    mainPosts c5Env c5Args 2 =
      Except.ok
        [{ id := 1, title := "Untitled Post 1", content := "Body text.",
           guid := "https://example.com/?p=1" },
         { id := 2, title := "Untitled Post 2", content := "Body text.",
           guid := "https://example.com/?p=2" }] ∧
    ([{ id := 1, title := "Untitled Post 1", content := "Body text.",
        guid := "https://example.com/?p=1" },
      { id := 2, title := "Untitled Post 2", content := "Body text.",
        guid := "https://example.com/?p=2" }] : List Post).length = 2 := by
  have hps : mainPosts c5Env c5Args 2 =
      Except.ok
        [{ id := 1, title := "Untitled Post 1", content := "Body text.",
           guid := "https://example.com/?p=1" },
         { id := 2, title := "Untitled Post 2", content := "Body text.",
           guid := "https://example.com/?p=2" }] := by decide
  have h := C5_filter_and_truncate.2 c5Env c5Args 2
    ["https://example.com/blog/a", "https://example.com/x",
     "https://example.com/blog/b", "https://example.com/blog/c"] 2 _
    (by decide) rfl (by decide) hps
  exact ⟨hps, h.2.1⟩

/-- C6: a sitemap fetch failure and an empty post-filter URL list each
terminate the run with an error-stream message and a non-zero status
(modelled as `Abort.exitMsg`), while per-page title fetch failures never
do: whenever the sitemap expands and the filtered list is nonempty and the
completion service answers, the run succeeds whatever `fetchPage` does. -/
theorem C6_exit_behavior :
    (∀ (env : Env) (args : Args) (fuel : Nat),
        env.fetchXml (discover_sitemap env.http args.url) = none →
        main env args (fuel + 1) =
          .error (.exitMsg
            ("Failed to fetch sitemap: " ++ discover_sitemap env.http args.url))) ∧
    (∀ (env : Env) (args : Args) (fuel : Nat) (urls0 : List String),
        parse_sitemap env.fetchXml fuel (discover_sitemap env.http args.url) = .ok urls0 →
        applyFilter args.domain_filter urls0 = [] →
        main env args fuel = .error (.exitMsg "No URLs found.")) ∧
    (∀ (env : Env) (args : Args) (fuel : Nat) (sel : List String),
        selectedUrls env args fuel = .ok sel →
        (∀ p, (env.complete p).isSome = true) →
        ∃ w, main env args fuel = .ok w) := by
  refine ⟨?_, ?_, ?_⟩
  · intro env args fuel h
    have hp : parse_sitemap env.fetchXml (fuel + 1) (discover_sitemap env.http args.url) =
        .error (.exitMsg ("Failed to fetch sitemap: " ++ discover_sitemap env.http args.url)) := by
      simp only [parse_sitemap, h]
    unfold main mainPosts selectedUrls
    rw [hp]
  · intro env args fuel urls0 hp hfil
    unfold main mainPosts selectedUrls
    rw [hp]
    dsimp only
    rw [hfil]
    rfl
  · intro env args fuel sel hsel hc
    obtain ⟨ps, hps⟩ := buildPosts_total env args.url hc sel 0
    refine ⟨(args.output, build_wxr env.slug env.now ps "Secret Hotline AI Blog" args.url), ?_⟩
    simp only [main, mainPosts, hsel, hps]

/-- Witness: C6 applied to a failing sitemap fetch. -/
theorem C6_exit_behavior_witness :
    main noXmlEnv exArgs 1 =
      Except.error (Abort.exitMsg
        ("Failed to fetch sitemap: " ++ discover_sitemap noXmlEnv.http exArgs.url)) :=
  C6_exit_behavior.1 noXmlEnv exArgs 0 rfl

/-- C7: the run performs no file write when it aborts at any stage (sitemap
fetch, empty list, or a generation error), and on success it performs
exactly one write, to the configured output path, of the export built
after content generation completed for every selected URL. -/
theorem C7_no_partial_output :
    (∀ (env : Env) (args : Args) (fuel : Nat) (e : Abort),
        main env args fuel = .error e → mainWrites env args fuel = []) ∧
    (∀ (env : Env) (args : Args) (fuel : Nat) (out : String) (rss : Elem),
        main env args fuel = .ok (out, rss) →
        out = args.output ∧
        ∃ ps, mainPosts env args fuel = .ok ps ∧
          rss = build_wxr env.slug env.now ps "Secret Hotline AI Blog" args.url ∧
          mainWrites env args fuel = [(args.output, rss)] ∧
          ∀ sel, selectedUrls env args fuel = .ok sel → ps.length = sel.length) := by
  constructor
  · intro env args fuel e h
    unfold mainWrites
    rw [h]
  · intro env args fuel out rss h
    obtain ⟨hout, ps, hps, hrss⟩ := main_ok_elim env args fuel out rss h
    refine ⟨hout, ps, hps, hrss, ?_, ?_⟩
    · unfold mainWrites
      rw [h, hout]
    · intro sel hsel
      obtain ⟨sel0, hsel0, hb⟩ := mainPosts_ok_elim env args fuel ps hps
      rw [hsel0] at hsel
      cases hsel
      exact (buildPosts_ok_spec env args.url _ 0 ps hb).1

/-- Witness: C7 applied to the aborting sitemap-fetch scenario. -/
theorem C7_no_partial_output_witness :
    mainWrites noXmlEnv exArgs 1 = [] :=
  C7_no_partial_output.1 noXmlEnv exArgs 1
    (.exitMsg ("Failed to fetch sitemap: " ++ discover_sitemap noXmlEnv.http exArgs.url))
    rfl

/-- C8 (code evaluation): in the channel of the built export, the single
wp:author record's children wp:author_id and wp:author_login carry "1" and
"admin" only as XML attributes named "text" — their element text is empty,
because `ET.Element(tag, text=...)` stores extra keyword arguments as
attributes, not as element content. -/
theorem C8_author_value_is_attribute :
    ((channelOf (build_wxr (fun s => s) "Mon, 01 Jan 2024 00:00:00 +0000" []
          "Secret Hotline AI Blog" "https://example.com")).bind
        (firstChild "wp:author")).map
        (fun a => a.children.map (fun c => (c.tag, c.text, c.attrib))) =
      some [("wp:author_id", none, [("text", "1")]),
            ("wp:author_login", none, [("text", "admin")])] := by
  decide

/-- C9 counterexample: the emitted description text is not the ASCII string
"Generated with GPT-4o"; the source string carries U+2011 (a non-breaking
hyphen) between "GPT" and "4o". -/
theorem C9_description_counterexample :
    childText "description"
        (wxrItem (fun s => s) "Mon, 01 Jan 2024 00:00:00 +0000"
          "https://example.com" examplePost) = some "Generated with GPT‑4o" ∧
    childText "description"
        (wxrItem (fun s => s) "Mon, 01 Jan 2024 00:00:00 +0000"
          "https://example.com" examplePost) ≠ some "Generated with GPT-4o" ∧
    ("Generated with GPT‑4o" : String) ≠ "Generated with GPT-4o" := by
  decide

/-- C9 (amended): for every post, the emitted item's description element
text equals the fixed string "Generated with GPT‑4o", whose hyphen is the
U+2011 non-breaking hyphen rather than the ASCII hyphen-minus. -/
theorem C9_description_text :
    ∀ (slug : String → String) (now : String) (posts : List Post) (t u : String),
      ∀ it ∈ itemsOf (build_wxr slug now posts t u),
        childText "description" it = some "Generated with GPT‑4o" := by
  intro slug now posts t u it hit
  rw [itemsOf_build_wxr] at hit
  obtain ⟨p, _, rfl⟩ := List.mem_map.mp hit
  rfl

/-- Witness: C9 applied to a one-post export. -/
theorem C9_description_text_witness :
    childText "description"
        (wxrItem (fun s => s) "Mon, 01 Jan 2024 00:00:00 +0000"
          "https://example.com" examplePost) = some "Generated with GPT‑4o" := by
  refine C9_description_text (fun s => s) "Mon, 01 Jan 2024 00:00:00 +0000" [examplePost]
    "Secret Hotline AI Blog" "https://example.com"
    (wxrItem (fun s => s) "Mon, 01 Jan 2024 00:00:00 +0000"
      "https://example.com" examplePost) ?_
  rw [itemsOf_build_wxr]
  exact List.mem_map_of_mem _ (List.mem_singleton.mpr rfl)

/-- C10: whatever the CLI arguments and environment, a successful run's
output WXR has the hardcoded channel title "Secret Hotline AI Blog" — the
crawled site's name never appears there. -/
theorem C10_channel_title :
    ∀ (env : Env) (args : Args) (fuel : Nat) (out : String) (rss : Elem),
      main env args fuel = .ok (out, rss) →
      (channelOf rss).bind (childText "title") = some "Secret Hotline AI Blog" := by
  intro env args fuel out rss h
  obtain ⟨_, ps, _, hrss⟩ := main_ok_elim env args fuel out rss h
  subst hrss
  rfl

/-- Witness: C10 applied to the end-to-end scenario. -/
theorem C10_channel_title_witness :
    (channelOf (build_wxr exEnv.slug exEnv.now
        [{ id := 1, title := "Alpha Title", content := "Body text.",
           guid := "https://example.com/?p=1" },
         { id := 2, title := "Beta Title", content := "Body text.",
           guid := "https://example.com/?p=2" }]
        "Secret Hotline AI Blog" exArgs.url)).bind (childText "title") =
      some "Secret Hotline AI Blog" :=
  C10_channel_title exEnv exArgs 2 "generated_posts.xml" _ rfl

end SitemapToWxr
